import Mathlib

/-!
Verification of the automated acquisition orchestrator
(`src/services/aipptDownloader.js`) against its natural-language
specification.  The JavaScript source is shallowly embedded: pure string
manipulation (filename derivation, URL validation) becomes Lean functions
on `String`/`List Char`; the event-driven download-trigger flow becomes a
function over an explicit fixture describing what each armed listener
would yield; the process-wide browser manager becomes a small-step state
machine over an explicit scheduler; fallible steps return `Except`.
Observable side effects of one acquisition request are recorded as an
explicit trace.
-/

namespace Aippt

/-! ### Small character/string helpers (JS built-ins used by the source) -/

/-- The ASCII apostrophe, written via its code point. -/
def aposChar : Char := Char.ofNat 39

/-- The ASCII double-quote character. -/
def quoteChar : Char := Char.ofNat 34

/-- Value of a hexadecimal digit, as used by `decodeURIComponent`. -/
def hexDigitVal (c : Char) : Option Nat :=
  if c.toNat ≥ 48 ∧ c.toNat ≤ 57 then some (c.toNat - 48)
  else if c.toNat ≥ 97 ∧ c.toNat ≤ 102 then some (c.toNat - 87)
  else if c.toNat ≥ 65 ∧ c.toNat ≤ 70 then some (c.toNat - 55)
  else none

/-- UTF-8 encoding of a single character, as a list of byte values. -/
def charUtf8Bytes (c : Char) : List Nat :=
  let n := c.toNat
  if n < 128 then [n]
  else if n < 2048 then [192 + n / 64, 128 + n % 64]
  else if n < 65536 then [224 + n / 4096, 128 + (n / 64) % 64, 128 + n % 64]
  else [240 + n / 262144, 128 + (n / 4096) % 64, 128 + (n / 64) % 64, 128 + n % 64]

/-- Phase one of `decodeURIComponent`: replace every `%hh` escape by the
byte it denotes and expand every other character to its UTF-8 bytes.
`none` models the `URIError` thrown on a malformed escape. -/
def pctBytes : List Char → Option (List Nat)
  | [] => some []
  | '%' :: h1 :: h2 :: rest =>
    match hexDigitVal h1, hexDigitVal h2 with
    | some a, some b => (pctBytes rest).map (fun tl => (a * 16 + b) :: tl)
    | _, _ => none
  | '%' :: _ => none
  | c :: rest => (pctBytes rest).map (fun tl => charUtf8Bytes c ++ tl)

/-- Value of a UTF-8 continuation byte, if it is one. -/
def contByte (b : Nat) : Option Nat :=
  if 128 ≤ b ∧ b < 192 then some (b - 128) else none

/-- Phase two of `decodeURIComponent`: strict UTF-8 decoding of the byte
sequence; `none` models the `URIError` thrown on an invalid sequence. -/
def utf8Decode : List Nat → Option (List Char)
  | [] => some []
  | b :: rest =>
    if b < 128 then (utf8Decode rest).map (fun tl => Char.ofNat b :: tl)
    else if b < 194 then none
    else if b < 224 then
      match rest with
      | b2 :: rest2 =>
        match contByte b2 with
        | some x =>
          let cp := (b - 192) * 64 + x
          (utf8Decode rest2).map (fun tl => Char.ofNat cp :: tl)
        | none => none
      | [] => none
    else if b < 240 then
      match rest with
      | b2 :: b3 :: rest3 =>
        match contByte b2, contByte b3 with
        | some x, some y =>
          let cp := (b - 224) * 4096 + x * 64 + y
          if cp < 2048 ∨ (55296 ≤ cp ∧ cp < 57344) then none
          else (utf8Decode rest3).map (fun tl => Char.ofNat cp :: tl)
        | _, _ => none
      | _ => none
    else if b < 245 then
      match rest with
      | b2 :: b3 :: b4 :: rest4 =>
        match contByte b2, contByte b3, contByte b4 with
        | some x, some y, some z =>
          let cp := (b - 240) * 262144 + x * 4096 + y * 64 + z
          if cp < 65536 ∨ cp > 1114111 then none
          else (utf8Decode rest4).map (fun tl => Char.ofNat cp :: tl)
        | _, _, _ => none
      | _ => none
    else none

/-- JS `decodeURIComponent`; `none` models a thrown `URIError`. -/
def decodeURIComponent (s : String) : Option String :=
  match pctBytes s.data with
  | none => none
  | some bs =>
    match utf8Decode bs with
    | none => none
    | some cs => some (String.mk cs)

/-- JS `String.prototype.trim` (whitespace removal at both ends). -/
def jsTrim (s : String) : String :=
  String.mk (((s.data.dropWhile Char.isWhitespace).reverse.dropWhile
    Char.isWhitespace).reverse)

/-- Match a literal pattern (given lower-case) case-insensitively at the
head of the input, returning the remaining input on success.  This is the
building block for the case-insensitive disposition regex. -/
def stripLitCI : List Char → List Char → Option (List Char)
  | [], cs => some cs
  | _ :: _, [] => none
  | p :: ps, c :: cs => if c.toLower = p then stripLitCI ps cs else none

/-- The literal of the first regex alternative,
`filename*=UTF-8''` lower-cased (the source regex carries the `i` flag). -/
def starFormLit : List Char :=
  ("filename*=utf-8").data ++ [aposChar, aposChar]

/-- First alternative of the source regex
`filename\*=UTF-8''([^;]+)` tried at one start position: on success the
captured group (the maximal non-empty run of non-semicolon characters). -/
def starFormAt (cs : List Char) : Option String :=
  match stripLitCI starFormLit cs with
  | none => none
  | some rest =>
    let cap := rest.takeWhile (fun c => c != ';')
    if cap.isEmpty then none else some (String.mk cap)

/-- Second alternative of the source regex `filename="?([^";]+)"?` tried
at one start position: after the literal `filename=` an optional opening
quote is consumed, then the captured group is the maximal non-empty run
of characters that are neither a double quote nor a semicolon. -/
def plainFormAt (cs : List Char) : Option String :=
  match stripLitCI ("filename").data cs with
  | none => none
  | some rest =>
    match rest with
    | '=' :: rest2 =>
      let rest3 := match rest2 with
        | c :: t => if c = quoteChar then t else rest2
        | [] => rest2
      let cap := rest3.takeWhile (fun c => c != quoteChar && c != ';')
      if cap.isEmpty then none else some (String.mk cap)
    | _ => none

/-- `exec` of the source regex
`/filename\*=UTF-8''([^;]+)|filename="?([^";]+)"?/i`: scan start
positions left to right; at each position try the star-form alternative
first, then the plain-form alternative; the result carries the two
capture groups (exactly one is populated). -/
def execDisp : List Char → Option (Option String × Option String)
  | [] => none
  | cs@(_ :: rest) =>
    match starFormAt cs with
    | some cap => some (some cap, none)
    | none =>
      match plainFormAt cs with
      | some cap => some (none, some cap)
      | none => execDisp rest

/-- Scan for the star-form pattern alone, anywhere in the header. -/
def starFormAnywhere : List Char → Option String
  | [] => none
  | cs@(_ :: rest) =>
    match starFormAt cs with
    | some cap => some cap
    | none => starFormAnywhere rest

/-- Scan for the plain-form pattern alone, anywhere in the header. -/
def plainFormAnywhere : List Char → Option String
  | [] => none
  | cs@(_ :: rest) =>
    match plainFormAt cs with
    | some cap => some cap
    | none => plainFormAnywhere rest

/-- Modelled from the spec: the specification describes the filename
derivation as "matching the content-disposition header first against the
pattern `filename*=UTF-8''<value>` and then against quoted/unquoted
`filename="<value>"`" — i.e. the star form is preferred wherever it
occurs in the header, and the plain form is consulted only if the star
form matched nowhere.  This definition follows the spec's words and is
compared against the source's single-regex `execDisp`. -/
def specStarPreferredExec (cs : List Char) : Option (Option String × Option String) :=
  match starFormAnywhere cs with
  | some cap => some (some cap, none)
  | none =>
    match plainFormAnywhere cs with
    | some cap => some (none, some cap)
    | none => none

/-- Pathname of a WHATWG URL (`new URL(u).pathname`) for the absolute
http(s) URLs the response listener can observe: everything from the first
slash after the authority up to the query or fragment; `/` when the
authority is followed directly by a query, fragment or the end. -/
def afterSchemeSep : List Char → Option (List Char)
  | [] => none
  | ':' :: '/' :: '/' :: rest => some rest
  | _ :: rest => afterSchemeSep rest

/-- See `afterSchemeSep`; this is `new URL(u).pathname`. -/
def urlPathname (u : String) : String :=
  match afterSchemeSep u.data with
  | none => "/"
  | some rest =>
    let afterAuth := rest.dropWhile (fun c => c != '/' && c != '?' && c != '#')
    match afterAuth with
    | '/' :: _ => String.mk (afterAuth.takeWhile (fun c => c != '?' && c != '#'))
    | _ => "/"

/-- The characters after the last slash (the whole string when it has no
slash, empty when it ends in a slash). -/
def afterLastSlash (cs : List Char) : List Char :=
  cs.foldl (fun acc c => if c = '/' then [] else acc ++ [c]) []

/-- JS `pathname.split('/').pop()`: the final element of the split. -/
def lastSegment (p : String) : String :=
  String.mk (afterLastSlash p.data)

/-- Node `path.join` restricted to the shapes the source produces
(one directory plus one relative component). -/
def pathJoin (dir name : String) : String :=
  if name = "" then dir else dir ++ "/" ++ name

/-- Node `path.basename` for the paths the source produces. -/
def pathBasename (p : String) : String :=
  String.mk (afterLastSlash p.data)

/-! ### Data model -/

/-- A Playwright `Download` handle: the only attribute the source reads is
`suggestedFilename()` (the empty string models a falsy suggestion). -/
structure DownloadHandle where
  suggestedFilename : String
deriving DecidableEq

/-- A captured network response: the source reads its
`content-disposition` header (Playwright lower-cases header names) and its
URL.  `none` models an absent header. -/
structure NetResponse where
  contentDisposition : Option String
  url : String
deriving DecidableEq

/-- What the engine can observe inside a popup page once it has appeared:
whether a nested `download` event fires within its 60s wait, whether a
download control is present in the popup, and whether the listener armed
before clicking that control yields a download. -/
structure PopupFixture where
  nestedDownload : Option DownloadHandle
  dlControlPresent : Bool
  postClickDownload : Option DownloadHandle
deriving DecidableEq

/-- One candidate selector of the trigger engine on the current page:
whether `locator(sel).count() > 0`, whether a plain `click()` succeeds,
and whether the forced `click({force: true})` retry succeeds. -/
structure CandidateState where
  present : Bool
  clickOk : Bool
  forceClickOk : Bool
deriving DecidableEq

/-- The environment one invocation of `clickImmediateDownload` runs in:
the six candidate selectors in source order, the three last-resort
`querySelector` probes (element found with text containing 立即下载), and
what each of the three armed completion listeners would deliver within
its 60-second timeout. -/
structure TriggerFixture where
  candTrackText : CandidateState
  candTrack : CandidateState
  candButtonText : CandidateState
  candAnchorText : CandidateState
  candClassGradient : CandidateState
  candClassMl3 : CandidateState
  evalTrackHit : Bool
  evalGradientHit : Bool
  evalMl3Hit : Bool
  nativeDownload : Option DownloadHandle
  popup : Option PopupFixture
  netResponse : Option NetResponse
deriving DecidableEq

/-- The realized download outcome (`DownloadSignal` of the spec): a native
download event on the page, a download event obtained through the popup
path, or a captured network response. -/
inductive DownloadSignal where
  | native (d : DownloadHandle)
  | popupDownload (d : DownloadHandle)
  | response (r : NetResponse)
deriving DecidableEq

/-- Errors the orchestrator can reject with.  The first four carry the
message strings thrown by the source itself; the rest model failures of
the external browser engine, filesystem and URI decoding. -/
inductive JsError where
  | invalidTemplateUrl
  | missingCredentials
  | buttonNotFound
  | downloadNotStarted
  | launchFailed
  | contextCreateFailed
  | pageCreateFailed
  | navigationTimeout
  | fillTimeout (field : String)
  | uriError
  | writeFailed
  | rmFailed
deriving DecidableEq

/-- The message of each error thrown literally by the source. -/
def JsError.message : JsError → String
  | .invalidTemplateUrl => "Invalid template URL"
  | .missingCredentials => "Missing AIPPT_USERNAME/AIPPT_PASSWORD"
  | .buttonNotFound => "未找到“立即下载”按钮"
  | .downloadNotStarted => "下载未开始"
  | .fillTimeout f => "timeout filling " ++ f
  | _ => "browser engine error"

/-- Observable side effects of one acquisition request, in order.
`browserLaunch` records the headless flag passed to the engine;
`browserClose` and `rmTmpDir` exist so that theorems can state that the
request itself never closes the shared browser and never removes the
temporary directory (removal happens only through the artifact's release
action). -/
inductive Effect where
  | mkTmpDir
  | browserLaunch (headless : Bool)
  | contextCreate
  | newPage
  | gotoPage
  | storageSave
  | downloadSaveAs
  | writeFile
  | contextClose
  | browserClose
  | rmTmpDir
deriving DecidableEq

/-- The file handle returned on success. -/
structure Artifact where
  filePath : String
  filename : String
deriving DecidableEq

/-- The login flow's environment: whether each best-effort click would
succeed, whether the optional password-login toggle is present, whether
each credential field can be filled within its timeout, whether the
labeled submit span is present, and whether the storage-state save
succeeds. -/
structure AuthFixture where
  loginBtnClickOk : Bool
  switchPwdPresent : Bool
  switchPwdClickOk : Bool
  accountFillOk : Bool
  passwordFillOk : Bool
  submitSpanPresent : Bool
  submitSpanClickOk : Bool
  primaryBtnClickOk : Bool
  storageSaveOk : Bool
deriving DecidableEq

/-- State of the persisted session snapshot file `data/aippt_storage.json`
at context-creation time. -/
inductive StateFileStatus where
  | absent
  | valid
  | corrupt
deriving DecidableEq

/-- One acquisition request's entire external environment. -/
structure World where
  templateUrl : String
  optionsHeadless : Option Bool
  envUsername : Option String
  envPassword : Option String
  envPlaywrightHeadless : Option String
  tmpDir : String
  stateFile : StateFileStatus
  launchOk : Bool
  ctxOk1 : Bool
  ctxOk2 : Bool
  newPageOk : Bool
  gotoOk : Bool
  loginRequired : Bool
  auth : AuthFixture
  attempt1 : TriggerFixture
  attempt2 : TriggerFixture
  attempt3 : TriggerFixture
  saveAsOk : Bool
  writeOk : Bool
deriving DecidableEq

/-! ### Download trigger engine (`clickImmediateDownload`, lines 96-191) -/

/-- Whether the loop clicks this candidate: the locator is non-empty and
either the plain click or the forced retry click succeeds (a failing
click is swallowed and the loop moves on). -/
def clickAttempt (c : CandidateState) : Bool :=
  c.present && (c.clickOk || c.forceClickOk)

/-- The six candidate selectors in the source's order:
(0) tracking attribute and label 立即下载, (1) tracking attribute alone,
(2) any button with the label, (3) an anchor with the label,
(4) class `bg-gradient-primary-lr`, (5) class `ml-3`. -/
def candidateStates (f : TriggerFixture) : List CandidateState :=
  [f.candTrackText, f.candTrack, f.candButtonText,
   f.candAnchorText, f.candClassGradient, f.candClassMl3]

/-- Index of the first candidate the loop successfully clicks. -/
def firstHit : List CandidateState → Option Nat
  | [] => none
  | c :: cs =>
    if clickAttempt c then some 0 else (firstHit cs).map (fun i => i + 1)

/-- Whether the last-resort `page.evaluate` click succeeds: one of its
three `querySelector` probes finds an element whose text contains
立即下载. -/
def lastResortClick (f : TriggerFixture) : Bool :=
  f.evalTrackHit || f.evalGradientHit || f.evalMl3Hit

/-- Outcome of the search-and-click phase. -/
inductive ClickOutcome where
  | selector (i : Nat)
  | lastResort
  | notFound
deriving DecidableEq

/-- The search-and-click phase: the loop over the six candidates first,
then the last-resort programmatic click. -/
def searchOutcome (f : TriggerFixture) : ClickOutcome :=
  match firstHit (candidateStates f) with
  | some i => .selector i
  | none => if lastResortClick f then .lastResort else .notFound

/-- Signal resolution after the click (lines 168-190): the native
download event first; failing that, the popup path (nested download
event, then — if a download control exists in the popup — the listener
armed around clicking it); failing that, the captured network response;
`none` when nothing fired. -/
def awaitSignals (f : TriggerFixture) : Option DownloadSignal :=
  match f.nativeDownload with
  | some d => some (.native d)
  | none =>
    let fromPopup : Option DownloadHandle :=
      match f.popup with
      | none => none
      | some p =>
        match p.nestedDownload with
        | some d => some d
        | none => if p.dlControlPresent then p.postClickDownload else none
    match fromPopup with
    | some d => some (.popupDownload d)
    | none => f.netResponse.map (fun r => .response r)

/-- `clickImmediateDownload`: throws the button-not-found error when
neither the candidate loop nor the last resort clicked anything;
otherwise resolves the armed signals (possibly to nothing). -/
def clickImmediateDownload (f : TriggerFixture) : Except JsError (Option DownloadSignal) :=
  match searchOutcome f with
  | .notFound => .error .buttonNotFound
  | _ => .ok (awaitSignals f)

/-! ### Artifact materializer (lines 239-261) -/

/-- Filename derivation for a network-response signal: run the
disposition regex; on a match, trim and percent-decode the populated
capture group (`none` models the `URIError` a malformed escape throws);
otherwise fall back to the last segment of the URL's pathname, and to the
generic name when that segment is empty. -/
def respFilename (disp : String) (url : String) : Option String :=
  match execDisp disp.data with
  | some (g1, g2) => decodeURIComponent (jsTrim (g1.getD (g2.getD (""))))
  | none =>
    let last := lastSegment (urlPathname url)
    some (if last = "" then "aippt-download" else last)

/-- Materialize a resolved signal into an artifact inside the request's
temporary directory, together with the effects performed.  A download
handle (native or popup) is saved under its suggested filename (generic
fallback when the suggestion is falsy); a response's body is written
under the derived filename. -/
def materializeSignal (tmpDir : String) (s : DownloadSignal)
    (saveAsOk writeOk : Bool) : Except JsError Artifact × List Effect :=
  match s with
  | .native d | .popupDownload d =>
    let suggested := d.suggestedFilename
    let fp := pathJoin tmpDir (if suggested = "" then "aippt-download" else suggested)
    if saveAsOk then (.ok ⟨fp, pathBasename fp⟩, [.downloadSaveAs])
    else (.error .writeFailed, [.downloadSaveAs])
  | .response r =>
    let disp := (r.contentDisposition).getD ("")
    match respFilename disp r.url with
    | none => (.error .uriError, [])
    | some fn =>
      let fp := pathJoin tmpDir fn
      if writeOk then (.ok ⟨fp, pathBasename fp⟩, [.writeFile])
      else (.error .writeFailed, [.writeFile])

/-! ### Login flow (lines 204-233) -/

/-- A click whose failure is caught and swallowed (`.catch(() => {})`):
its success or failure has no observable consequence for the flow. -/
def bestEffortClick (_ok : Bool) : Unit := ()

/-- The interactive login protocol: open the login/register entry point
(best-effort), optionally click the switch-to-password toggle
(best-effort), fill the account field (a timeout propagates), fill the
password field (a timeout propagates), then click the labeled submit span
if present, else the generic primary submit button (both best-effort). -/
def authenticate (a : AuthFixture) : Except JsError Unit :=
  let _ := bestEffortClick a.loginBtnClickOk
  let _ := if a.switchPwdPresent then bestEffortClick a.switchPwdClickOk else ()
  if !a.accountFillOk then .error (.fillTimeout ("account"))
  else if !a.passwordFillOk then .error (.fillTimeout ("password"))
  else
    let _ := if a.submitSpanPresent then bestEffortClick a.submitSpanClickOk
             else bestEffortClick a.primaryBtnClickOk
    .ok ()

/-! ### The orchestrator `downloadAipptTemplate` (lines 37-266) -/

/-- The URL precondition `/^https?:\/\//.test(templateUrl)`. -/
def urlOk (s : String) : Bool :=
  (("http://").data).isPrefixOf s.data || (("https://").data).isPrefixOf s.data

/-- JS falsiness of an environment value: absent or the empty string. -/
def jsFalsy (o : Option String) : Bool :=
  match o with
  | none => true
  | some s => s == ""

/-- The headless flag:
`options.headless ?? (headlessEnv ? headlessEnv !== 'false' : true)`. -/
def headlessOf (opt : Option Bool) (env : Option String) : Bool :=
  match opt with
  | some h => h
  | none =>
    match env with
    | none => true
    | some s => if s == "" then true else s != "false"

/-- Whether the snapshot file makes `newContext` throw: only a corrupt
file does (a missing file is passed as `undefined`, a valid one loads). -/
def stateFileCorrupt : StateFileStatus → Bool
  | .corrupt => true
  | _ => false

/-- Result of one trigger attempt as seen by the retry loop: the thrown
button-not-found error is swallowed into "no download". -/
def attemptResult (f : TriggerFixture) : Option DownloadSignal :=
  match clickImmediateDownload f with
  | .ok s => s
  | .error _ => none

/-- The up-to-three-attempt retry loop around `clickImmediateDownload`. -/
def firstSignal (w : World) : Option DownloadSignal :=
  match attemptResult w.attempt1 with
  | some s => some s
  | none =>
    match attemptResult w.attempt2 with
    | some s => some s
    | none => attemptResult w.attempt3

/-- The body of the orchestrator's `try` block: navigate, settle
(best-effort, unobservable), detect the login branch, optionally
authenticate and persist the session, run the trigger retry loop, and
materialize the outcome. -/
def runBody (w : World) : Except JsError Artifact × List Effect :=
  if !w.gotoOk then (.error .navigationTimeout, [.gotoPage])
  else if !w.loginRequired then
    match firstSignal w with
    | none => (.error .downloadNotStarted, [.gotoPage])
    | some s =>
      ((materializeSignal w.tmpDir s w.saveAsOk w.writeOk).1,
       [Effect.gotoPage] ++ (materializeSignal w.tmpDir s w.saveAsOk w.writeOk).2)
  else
    match authenticate w.auth with
    | .error e => (.error e, [.gotoPage])
    | .ok _ =>
      match firstSignal w with
      | none => (.error .downloadNotStarted, [.gotoPage, .storageSave])
      | some s =>
        ((materializeSignal w.tmpDir s w.saveAsOk w.writeOk).1,
         [Effect.gotoPage, Effect.storageSave] ++ (materializeSignal w.tmpDir s w.saveAsOk w.writeOk).2)

/-- Continuation after a browsing context exists: create the page
(a failure here propagates without entering the `try`/`finally`, so the
context is not closed on that path), then run the body; the `finally`
closes the context (best-effort) on every path through the body. -/
def afterContext (w : World) (pre : List Effect) : Except JsError Artifact × List Effect :=
  if !w.newPageOk then (.error .pageCreateFailed, pre ++ [Effect.newPage])
  else
    ((runBody w).1,
     pre ++ [Effect.newPage] ++ (runBody w).2 ++ [Effect.contextClose])

/-- `downloadAipptTemplate`: validate the URL, require both credential
environment values, create the temporary directory, acquire the shared
browser, open the context (one retry after re-acquiring the browser),
open the page, and run the body under the `finally` that closes the
context.  The returned trace records every observable effect in order. -/
def downloadAipptTemplate (w : World) : Except JsError Artifact × List Effect :=
  if !(urlOk w.templateUrl) then (.error .invalidTemplateUrl, [])
  else if jsFalsy w.envUsername || jsFalsy w.envPassword then
    (.error .missingCredentials, [])
  else
    let headless := headlessOf w.optionsHeadless w.envPlaywrightHeadless
    if !w.launchOk then (.error .launchFailed, [.mkTmpDir, .browserLaunch headless])
    else
      let pre := [Effect.mkTmpDir, Effect.browserLaunch headless]
      if !(stateFileCorrupt w.stateFile) && w.ctxOk1 then
        afterContext w (pre ++ [Effect.contextCreate])
      else if !(stateFileCorrupt w.stateFile) && w.ctxOk2 then
        afterContext w (pre ++ [Effect.contextCreate, Effect.contextCreate])
      else
        (.error .contextCreateFailed, pre ++ [Effect.contextCreate, Effect.contextCreate])

/-! ### The artifact's release action (lines 243 and 261) -/

/-- State of the request's temporary directory when the release action
runs: present and removable, present but failing removal for a reason
other than absence (e.g. permissions), or already absent. -/
inductive DirState where
  | present
  | presentLocked
  | absent
deriving DecidableEq

/-- The artifact's `cleanup` closure,
`() => fs.rmSync(tmpDir, { recursive: true, force: true })`:
`force: true` suppresses only the path-does-not-exist error; any other
removal error propagates to the caller (there is no surrounding catch). -/
def cleanup : DirState → Except JsError DirState
  | .present => .ok .absent
  | .absent => .ok .absent
  | .presentLocked => .error .rmFailed

/-! ### Browser session manager (`getSharedBrowser`, lines 6-35) -/

/-- The module-level mutable state: `sharedBrowser` (a connected instance
or `null`), `launchingBrowser` (the in-flight launch promise or `null`),
plus bookkeeping: the next launch identifier and every launch started so
far. -/
structure ManagerState where
  sharedBrowser : Option Nat
  launchingBrowser : Option Nat
  nextLaunchId : Nat
  launches : List Nat
deriving DecidableEq

/-- Where one caller of `getSharedBrowser` is suspended. -/
inductive CallerState where
  | awaitingShared (lid : Nat)
  | awaitingOwn (lid : Nat)
  | finished (r : Except Unit Nat)

/-- The state before any browser instance exists. -/
def initManager : ManagerState :=
  { sharedBrowser := none, launchingBrowser := none, nextLaunchId := 0, launches := [] }

/-- One caller entering `getSharedBrowser`, run synchronously to its
first suspension point: return the connected instance if cached; else
suspend on the in-flight launch if one exists; else start a launch and
suspend on it. -/
def callStart (g : ManagerState) : ManagerState × CallerState :=
  match g.sharedBrowser with
  | some b => (g, .finished (.ok b))
  | none =>
    match g.launchingBrowser with
    | some l => (g, .awaitingShared l)
    | none =>
      let lid := g.nextLaunchId
      ({ g with launchingBrowser := some lid, nextLaunchId := lid + 1,
                launches := g.launches ++ [lid] },
       .awaitingOwn lid)

/-- `n` callers entering `getSharedBrowser` one after another, all before
any launch settles (single-threaded event loop: each runs synchronously
to its suspension point). -/
def startAll : ManagerState → Nat → ManagerState × List CallerState
  | g, 0 => (g, [])
  | g, n + 1 =>
    let (g1, c) := callStart g
    let (g2, cs) := startAll g1 n
    (g2, c :: cs)

/-- Resume one suspended caller after launch `lid` settled with `res`.
The initiator (suspended at `sharedBrowser = await launchingBrowser`)
returns the instance on success and rejects with the failure.  A waiter
(suspended at the guarded `await launchingBrowser`) swallows a rejection,
re-checks `sharedBrowser`, and — finding none — starts a fresh launch of
its own without re-checking `launchingBrowser`. -/
def resumeCaller (lid : Nat) (res : Except Unit Nat) (g : ManagerState)
    (c : CallerState) : ManagerState × CallerState :=
  match c with
  | .awaitingOwn l =>
    if l = lid then
      match res with
      | .ok b => ({ g with sharedBrowser := some b }, .finished (.ok b))
      | .error _ => (g, .finished (.error ()))
    else (g, c)
  | .awaitingShared l =>
    if l = lid then
      match g.sharedBrowser with
      | some b => (g, .finished (.ok b))
      | none =>
        let nl := g.nextLaunchId
        ({ g with launchingBrowser := some nl, nextLaunchId := nl + 1,
                  launches := g.launches ++ [nl] },
         .awaitingOwn nl)
    else (g, c)
  | .finished _ => (g, c)

/-- Resume every suspended caller in attachment order, threading the
mutable module state through (a resumed waiter can start a new launch
that later waiters observe only via the shared state). -/
def resumeAll (lid : Nat) (res : Except Unit Nat) :
    ManagerState → List CallerState → ManagerState × List CallerState
  | g, [] => (g, [])
  | g, c :: cs =>
    let (g1, c') := resumeCaller lid res g c
    let (g2, cs') := resumeAll lid res g1 cs
    (g2, c' :: cs')

/-- Launch `lid` settles: first its `.then`/`.catch` handler runs
(caching the instance and clearing the in-flight marker on success;
clearing the in-flight marker on failure), then every awaiting caller is
resumed in order. -/
def resolveLaunch (g : ManagerState) (cs : List CallerState) (lid : Nat)
    (res : Except Unit Nat) : ManagerState × List CallerState :=
  let g0 := match res with
    | .ok b => { g with sharedBrowser := some b, launchingBrowser := none }
    | .error _ => { g with launchingBrowser := none }
  resumeAll lid res g0 cs

/-- The `disconnected` event handler: clear the cached reference. -/
def onDisconnected (g : ManagerState) : ManagerState :=
  { g with sharedBrowser := none }

/-! ### Concrete scenarios for the browser session manager -/

/-- `n` callers arrive before any instance exists, then the single
in-flight launch succeeds, producing instance `0`. -/
def coalesceScenario (n : Nat) : ManagerState × List CallerState :=
  let (g, cs) := startAll initManager n
  resolveLaunch g cs 0 (.ok 0)

/-- Two callers arrive before any instance exists; the first (and only
in-flight) launch fails; the waiter's own fresh launch then succeeds. -/
def failRetryScenario : ManagerState × List CallerState :=
  let (g1, cs1) := startAll initManager 2
  let (g2, cs2) := resolveLaunch g1 cs1 0 (.error ())
  resolveLaunch g2 cs2 1 (.ok 1)

/-- A single caller's launch fails with nobody waiting; a subsequent
caller then retries. -/
def failThenRetryAlone : ManagerState × CallerState :=
  let (g1, c1) := callStart initManager
  let (g2, _) := resolveLaunch g1 [c1] 0 (.error ())
  callStart g2

/-- The shared instance disconnects after a successful launch; the next
caller must trigger a fresh launch. -/
def disconnectScenario : ManagerState × CallerState :=
  let (g, _) := coalesceScenario 1
  callStart (onDisconnected g)

/-! ### Concrete fixtures and worlds -/

/-- A selector that does not match. -/
def candAbsent : CandidateState := ⟨false, false, false⟩

/-- A selector that matches and whose click succeeds. -/
def candClickable : CandidateState := ⟨true, true, true⟩

/-- A run where the first candidate is clicked but no completion signal
ever fires. -/
def trigNone : TriggerFixture :=
  { candTrackText := candClickable, candTrack := candAbsent,
    candButtonText := candAbsent, candAnchorText := candAbsent,
    candClassGradient := candAbsent, candClassMl3 := candAbsent,
    evalTrackHit := false, evalGradientHit := false, evalMl3Hit := false,
    nativeDownload := none, popup := none, netResponse := none }

/-- The header of the spec's signal-race test. -/
def dispXpptx : String := "attachment; filename=\"x.pptx\""

/-- The response of the spec's signal-race test: an attachment
disposition naming `x.pptx`. -/
def respXpptx : NetResponse :=
  { contentDisposition := some dispXpptx,
    url := "https://www.aippt.cn/api/template/file" }

/-- A run where only the network-response listener fires: no native
download event and no popup. -/
def trigXpptx : TriggerFixture := { trigNone with netResponse := some respXpptx }

/-- A run where the popup-page listener fires but the popup yields
neither a nested download event nor a download control, and no other
signal fires. -/
def trigBarrenPopup : TriggerFixture :=
  { trigNone with
    popup := some { nestedDownload := none, dlControlPresent := false,
                    postClickDownload := none } }

/-- A run where only the third-priority candidate (any button with the
label text) matches and is clickable, and the native download event
fires. -/
def trigThirdOnly : TriggerFixture :=
  { trigNone with
    candTrackText := candAbsent, candButtonText := candClickable,
    nativeDownload := some { suggestedFilename := "t.pptx" } }

/-- A run where no candidate matches and the last-resort query also finds
nothing. -/
def trigNothing : TriggerFixture := { trigNone with candTrackText := candAbsent }

/-- A run where no candidate click succeeds but the last-resort
programmatic click finds the tracking-attribute element. -/
def trigLastResort : TriggerFixture :=
  { trigNothing with evalTrackHit := true,
                     nativeDownload := some { suggestedFilename := "t.pptx" } }

/-- A login environment in which every step succeeds. -/
def authAllOk : AuthFixture :=
  { loginBtnClickOk := true, switchPwdPresent := true, switchPwdClickOk := true,
    accountFillOk := true, passwordFillOk := true, submitSpanPresent := true,
    submitSpanClickOk := true, primaryBtnClickOk := true, storageSaveOk := true }

/-- A login environment with no locatable submit control: the labeled
submit span is absent and clicking the generic primary button fails. -/
def authNoSubmit : AuthFixture :=
  { authAllOk with submitSpanPresent := false, primaryBtnClickOk := false }

/-- A baseline request environment: a valid template URL, both
credentials present, no headless override, no persisted snapshot, a
healthy browser engine, no login required, and three trigger attempts
that click but see no signal. -/
def baseWorld : World :=
  { templateUrl := "https://www.aippt.cn/template/1", optionsHeadless := none,
    envUsername := some ("user"), envPassword := some ("pass"),
    envPlaywrightHeadless := none, tmpDir := "/tmp/aippt-k3x9Qz",
    stateFile := .absent, launchOk := true, ctxOk1 := true, ctxOk2 := true,
    newPageOk := true, gotoOk := true, loginRequired := false,
    auth := authAllOk, attempt1 := trigNone, attempt2 := trigNone,
    attempt3 := trigNone, saveAsOk := true, writeOk := true }

/-- The signal-race world: the first trigger attempt resolves the
network response carrying the `x.pptx` disposition. -/
def worldXpptx : World := { baseWorld with attempt1 := trigXpptx }

/-- A world whose target URL fails the absolute-http(s) pattern. -/
def worldBadUrl : World := { baseWorld with templateUrl := "ftp://example.com/x" }

/-- A world with the password environment value absent. -/
def worldNoPassword : World := { baseWorld with envPassword := none }

/-- A world whose persisted snapshot file is corrupt. -/
def worldCorrupt : World := { baseWorld with stateFile := .corrupt }

/-- A world where page creation fails after the context was created. -/
def worldNoPage : World := { baseWorld with newPageOk := false }

/-- Two apostrophes, as they appear in the star-form pattern. -/
def aposPair : String := String.mk [aposChar, aposChar]

/-- A header carrying the plain form before the star form. -/
def dispBoth : String :=
  "attachment; filename=\"a.txt\"; filename*=UTF-8" ++ aposPair ++ "b.txt"

/-- A header carrying only the star form, with a percent escape. -/
def dispStar : String :=
  "attachment; filename*=UTF-8" ++ aposPair ++ "b%20c.pptx"

/-- The manager state after the first caller started launch `0` and
suspended on it. -/
def managerAfterFirst : ManagerState :=
  { sharedBrowser := none, launchingBrowser := some 0, nextLaunchId := 1,
    launches := [0] }

/-- The manager state after launch `0` succeeded with instance `0`. -/
def managerLaunched : ManagerState :=
  { sharedBrowser := some 0, launchingBrowser := none, nextLaunchId := 1,
    launches := [0] }

/-! ### Helper lemmas -/

/-- When something was clicked, `clickImmediateDownload` resolves the
armed signals. -/
theorem clickImmediateDownload_found (f : TriggerFixture)
    (h : searchOutcome f ≠ ClickOutcome.notFound) :
    clickImmediateDownload f = .ok (awaitSignals f) := by
  unfold clickImmediateDownload
  cases hs : searchOutcome f <;> simp_all

/-- `firstHit` returns the index of the first successfully clicked
candidate: that candidate's click succeeds and every earlier candidate's
click attempt fails. -/
theorem firstHit_spec (l : List CandidateState) (i : Nat)
    (h : firstHit l = some i) :
    ∃ c, l[i]? = some c ∧ clickAttempt c = true
      ∧ ∀ j cj, j < i → l[j]? = some cj → clickAttempt cj = false := by
  induction l generalizing i with
  | nil => simp [firstHit] at h
  | cons c cs ih =>
    by_cases hc : clickAttempt c
    · simp [firstHit, hc] at h
      subst h
      exact ⟨c, by simp, hc, fun j cj hj => by omega⟩
    · simp [firstHit, hc] at h
      obtain ⟨i', hi', rfl⟩ := h
      obtain ⟨c', hg, hca, hprev⟩ := ih i' hi'
      refine ⟨c', by simpa using hg, hca, ?_⟩
      intro j cj hj hgj
      cases j with
      | zero =>
        simp at hgj
        simpa [hgj] using hc
      | succ k =>
        exact hprev k cj (by omega) (by simpa using hgj)

/-- The materializer only saves the download or writes the response
body. -/
theorem materializeSignal_mem (tmp : String) (s : DownloadSignal)
    (a b : Bool) (e : Effect) (he : e ∈ (materializeSignal tmp s a b).2) :
    e = Effect.downloadSaveAs ∨ e = Effect.writeFile := by
  rcases s with d | d | r <;> simp only [materializeSignal] at he
  · split at he <;> simp_all
  · split at he <;> simp_all
  · rcases hr : respFilename ((r.contentDisposition).getD ("")) r.url with _ | fn <;>
      simp only [hr] at he
    · simp at he
    · split at he <;> simp_all

/-- The effects the `try`-block body can perform. -/
theorem runBody_mem (w : World) (e : Effect) (he : e ∈ (runBody w).2) :
    e = Effect.gotoPage ∨ e = Effect.storageSave ∨
    e = Effect.downloadSaveAs ∨ e = Effect.writeFile := by
  unfold runBody at he
  split at he
  · simp_all
  · split at he
    · rcases hs : firstSignal w with _ | s <;> simp [hs] at he
      · simp [he]
      · rcases he with he | he
        · simp [he]
        · rcases materializeSignal_mem _ _ _ _ _ he with h | h <;> simp [h]
    · rcases ha : authenticate w.auth with e' | u <;> simp [ha] at he
      · simp [he]
      · rcases hs : firstSignal w with _ | s <;> simp [hs] at he
        · rcases he with he | he <;> simp [he]
        · rcases he with he | he | he
          · simp [he]
          · simp [he]
          · rcases materializeSignal_mem _ _ _ _ _ he with h | h <;> simp [h]

/-! ### C1 — signal resolution priority -/

/-- C1 (amended): after a successful click, the engine resolves signals
in strict priority — the native download event first; failing that the
popup path (the nested download event, then the listener armed around
clicking a download control in the popup); failing that the captured
network response.  At most one `DownloadSignal` results; a popup that
yields neither a nested download nor a post-click download resolves
nothing, and the engine then falls back to the network response (or
reports no download).  In the signal-race scenario — a network response
carrying `content-disposition: attachment; filename="x.pptx"`, no native
download event and no popup — the resulting artifact's filename is
exactly `x.pptx`. -/
theorem c1_signal_priority :
    (∀ f d, searchOutcome f ≠ ClickOutcome.notFound →
      f.nativeDownload = some d →
      clickImmediateDownload f = .ok (some (.native d)))
    ∧ (∀ f p d, searchOutcome f ≠ ClickOutcome.notFound →
      f.nativeDownload = none → f.popup = some p →
      p.nestedDownload = some d →
      clickImmediateDownload f = .ok (some (.popupDownload d)))
    ∧ (∀ f p d, searchOutcome f ≠ ClickOutcome.notFound →
      f.nativeDownload = none → f.popup = some p →
      p.nestedDownload = none → p.dlControlPresent = true →
      p.postClickDownload = some d →
      clickImmediateDownload f = .ok (some (.popupDownload d)))
    ∧ (∀ f, searchOutcome f ≠ ClickOutcome.notFound →
      f.nativeDownload = none → f.popup = none →
      clickImmediateDownload f = .ok ((f.netResponse).map (fun r => .response r)))
    ∧ (∀ f p, searchOutcome f ≠ ClickOutcome.notFound →
      f.nativeDownload = none → f.popup = some p →
      p.nestedDownload = none → p.postClickDownload = none →
      clickImmediateDownload f = .ok ((f.netResponse).map (fun r => .response r)))
    ∧ (downloadAipptTemplate worldXpptx).1 =
        .ok { filePath := "/tmp/aippt-k3x9Qz/x.pptx", filename := "x.pptx" } := by
  refine ⟨?_, ?_, ?_, ?_, ?_, rfl⟩
  · intro f d h hn
    rw [clickImmediateDownload_found f h]
    simp [awaitSignals, hn]
  · intro f p d h hn hp hd
    rw [clickImmediateDownload_found f h]
    simp [awaitSignals, hn, hp, hd]
  · intro f p d h hn hp hd hc hpost
    rw [clickImmediateDownload_found f h]
    simp [awaitSignals, hn, hp, hd, hc, hpost]
  · intro f h hn hp
    rw [clickImmediateDownload_found f h]
    simp [awaitSignals, hn, hp]
  · intro f p h hn hp hd hpost
    rw [clickImmediateDownload_found f h]
    cases hc : p.dlControlPresent <;>
      simp [awaitSignals, hn, hp, hd, hpost, hc]

/-- C1 witness: the priority facts applied at concrete fixtures. -/
theorem c1_signal_priority_witness :
    clickImmediateDownload trigThirdOnly =
      .ok (some (.native { suggestedFilename := "t.pptx" }))
    ∧ clickImmediateDownload trigXpptx = .ok (some (.response respXpptx)) :=
  ⟨c1_signal_priority.1 trigThirdOnly _ (by decide) rfl,
   c1_signal_priority.2.2.2.1 trigXpptx (by decide) rfl rfl⟩

/-- C1 counterexample: a run in which exactly one armed completion
signal fires — the popup-page listener — yet the engine resolves no
`DownloadSignal` at all, because the popup yields neither a nested
download event nor a download control.  The claim's "when at least one
of the three armed completion signals fires … the engine resolves
exactly one DownloadSignal" is therefore false as stated. -/
theorem c1_counterexample :
    (trigBarrenPopup.popup).isSome = true
    ∧ trigBarrenPopup.nativeDownload = none
    ∧ trigBarrenPopup.netResponse = none
    ∧ searchOutcome trigBarrenPopup ≠ ClickOutcome.notFound
    ∧ clickImmediateDownload trigBarrenPopup = .ok none :=
  ⟨rfl, rfl, rfl, by decide, rfl⟩

/-! ### C2 — selector fallback order -/

/-- C2: the candidate selectors are evaluated top-to-bottom and the first
one that is present and successfully clicked wins (every earlier
candidate failed); on a page where only the third-priority selector
(a button with the label text) produces a successful click, the third
candidate is clicked and no trigger-not-found error is raised; when no
candidate produces a successful click but the last-resort document query
does, no error is raised either; the engine fails exactly when the loop
and the last resort both fail, with the error message
未找到“立即下载”按钮. -/
theorem c2_selector_fallback :
    (∀ f i, searchOutcome f = ClickOutcome.selector i →
      ∃ c, (candidateStates f)[i]? = some c ∧ clickAttempt c = true
        ∧ ∀ j cj, j < i → (candidateStates f)[j]? = some cj →
            clickAttempt cj = false)
    ∧ (∀ f, clickAttempt f.candTrackText = false →
        clickAttempt f.candTrack = false →
        clickAttempt f.candButtonText = true →
        searchOutcome f = ClickOutcome.selector 2
        ∧ ∃ s, clickImmediateDownload f = .ok s)
    ∧ (∀ f, firstHit (candidateStates f) = none → lastResortClick f = true →
        searchOutcome f = ClickOutcome.lastResort
        ∧ ∃ s, clickImmediateDownload f = .ok s)
    ∧ (∀ f e, clickImmediateDownload f = .error e ↔
        (e = JsError.buttonNotFound ∧ firstHit (candidateStates f) = none
          ∧ lastResortClick f = false))
    ∧ JsError.buttonNotFound.message = "未找到“立即下载”按钮" := by
  refine ⟨?_, ?_, ?_, ?_, rfl⟩
  · intro f i h
    unfold searchOutcome at h
    rcases hf : firstHit (candidateStates f) with _ | i'
    · rw [hf] at h
      cases hl : lastResortClick f <;> simp [hl] at h
    · rw [hf] at h
      simp at h
      subst h
      exact firstHit_spec _ _ hf
  · intro f h0 h1 h2
    have hs : searchOutcome f = ClickOutcome.selector 2 := by
      simp [searchOutcome, candidateStates, firstHit, h0, h1, h2]
    exact ⟨hs, awaitSignals f, clickImmediateDownload_found f (by simp [hs])⟩
  · intro f hf hl
    have hs : searchOutcome f = ClickOutcome.lastResort := by
      simp [searchOutcome, hf, hl]
    exact ⟨hs, awaitSignals f, clickImmediateDownload_found f (by simp [hs])⟩
  · intro f e
    unfold clickImmediateDownload searchOutcome
    rcases hf : firstHit (candidateStates f) with _ | i <;>
      cases hl : lastResortClick f <;> simp [hf, hl, eq_comm]

/-- C2 witness: on the fixture where only the third candidate is
clickable, the third selector is the one clicked and the engine reports
no error; the error characterization applied at the all-failing
fixture. -/
theorem c2_selector_fallback_witness :
    (searchOutcome trigThirdOnly = ClickOutcome.selector 2
      ∧ ∃ s, clickImmediateDownload trigThirdOnly = .ok s)
    ∧ clickImmediateDownload trigNothing = .error JsError.buttonNotFound :=
  ⟨c2_selector_fallback.2.1 trigThirdOnly rfl rfl rfl,
   (c2_selector_fallback.2.2.2.1 trigNothing JsError.buttonNotFound).mpr
     ⟨rfl, by decide, rfl⟩⟩

/-! ### C3 — filename derivation for a network response -/

/-- C3 (amended): the filename is derived from the first (leftmost)
occurrence in the `content-disposition` header of either pattern — at
each scan position the star form `filename*=UTF-8''<value>` is tried
before the quoted/unquoted `filename=<value>` form, but a plain form
occurring earlier in the header wins over a later star form — and the
captured value is percent-decoded; when the header is absent or matches
neither pattern the filename falls back to the last path segment of the
response URL (query string excluded), and finally to the fixed generic
name `aippt-download`. -/
theorem c3_filename_derivation :
    (∀ url, respFilename ("") url =
      some (if lastSegment (urlPathname url) = "" then "aippt-download"
            else lastSegment (urlPathname url)))
    ∧ respFilename ("") ("https://cdn.example.com/files/report.pdf?x=1") =
        some ("report.pdf")
    ∧ respFilename ("") ("https://cdn.example.com") = some ("aippt-download")
    ∧ respFilename dispXpptx ("https://cdn.example.com/api") = some ("x.pptx")
    ∧ respFilename dispStar ("https://cdn.example.com/api") = some ("b c.pptx")
    ∧ respFilename dispBoth ("https://cdn.example.com/api") = some ("a.txt") :=
  ⟨fun _ => rfl, rfl, rfl, rfl, rfl, rfl⟩

/-- C3 counterexample: a header carrying the plain form before the star
form.  The source's single regex takes the leftmost match, `a.txt`; the
claim's "matching first against `filename*=UTF-8''<value>` and then
against `filename="<value>"`" (the spec-modelled two-pass preference)
would take `b.txt`. -/
theorem c3_counterexample :
    execDisp dispBoth.data = some (none, some ("a.txt"))
    ∧ specStarPreferredExec dispBoth.data = some (some ("b.txt"), none)
    ∧ respFilename dispBoth ("https://h/p") = some ("a.txt")
    ∧ (some ("a.txt") : Option String) ≠ some ("b.txt") :=
  ⟨rfl, rfl, rfl, by decide⟩

/-! ### C4 — boundary configuration errors -/

/-- C4: every supplied `templateUrl` failing the absolute-http(s)
pattern makes the orchestrator fail with the configuration error
`Invalid template URL` with an empty effect trace — no temporary
directory, no browser launch, no context creation, no navigation; and
every call with either credential environment value absent (or empty)
fails with `Missing AIPPT_USERNAME/AIPPT_PASSWORD`, equally before any
browser interaction. -/
theorem c4_config_errors :
    (∀ w : World, urlOk w.templateUrl = false →
      downloadAipptTemplate w = (.error .invalidTemplateUrl, []))
    ∧ (∀ w : World, urlOk w.templateUrl = true →
      (jsFalsy w.envUsername || jsFalsy w.envPassword) = true →
      downloadAipptTemplate w = (.error .missingCredentials, []))
    ∧ JsError.invalidTemplateUrl.message = "Invalid template URL"
    ∧ JsError.missingCredentials.message = "Missing AIPPT_USERNAME/AIPPT_PASSWORD" := by
  refine ⟨?_, ?_, rfl, rfl⟩
  · intro w h
    unfold downloadAipptTemplate
    simp [h]
  · intro w h1 h2
    unfold downloadAipptTemplate
    simp [h1, h2]

/-- C4 witness: the theorem applied to a world with an `ftp://` URL and
to a world with the password value absent. -/
theorem c4_config_errors_witness :
    downloadAipptTemplate worldBadUrl = (.error .invalidTemplateUrl, [])
    ∧ downloadAipptTemplate worldNoPassword = (.error .missingCredentials, []) :=
  ⟨c4_config_errors.1 worldBadUrl (by decide),
   c4_config_errors.2.1 worldNoPassword (by decide) (by decide)⟩

/-- The trace of the phase after a context exists: the accumulated
prefix, the page creation, and — when the page opens — the body's
effects followed by the context close. -/
theorem afterContext_mem (w : World) (pre : List Effect) (e : Effect)
    (he : e ∈ (afterContext w pre).2) :
    e ∈ pre ∨ e = Effect.newPage ∨ e = Effect.contextClose ∨ e ∈ (runBody w).2 := by
  unfold afterContext at he
  split at he <;> simp at he <;> tauto

/-- The last element of a trace of the form `a :: (l ++ [x])`. -/
theorem lastConcat (a x : Effect) (l : List Effect) :
    (a :: (l ++ [x])).getLast? = some x := by
  have h : a :: (l ++ [x]) = (a :: l) ++ [x] := by simp
  rw [h, List.getLast?_append_of_ne_nil _ (by simp)]
  rfl

/-- No effect of an acquisition request is a browser close or a
temporary-directory removal. -/
theorem downloadTrace_mem (w : World) (e : Effect)
    (he : e ∈ (downloadAipptTemplate w).2) :
    e ≠ Effect.browserClose ∧ e ≠ Effect.rmTmpDir := by
  unfold downloadAipptTemplate at he
  split at he
  · simp at he
  · split at he
    · simp at he
    · split at he
      · simp at he
        rcases he with he | he <;> simp [he]
      · split at he
        · rcases afterContext_mem w _ e he with h | h | h | h
          · simp at h
            rcases h with h | h | h <;> simp [h]
          · simp [h]
          · simp [h]
          · rcases runBody_mem w e h with h | h | h | h <;> simp [h]
        · split at he
          · rcases afterContext_mem w _ e he with h | h | h | h
            · simp at h
              rcases h with h | h | h <;> simp [h]
            · simp [h]
            · simp [h]
            · rcases runBody_mem w e h with h | h | h | h <;> simp [h]
          · simp at he
            rcases he with he | he | he <;> simp [he]

/-- The materializer never fails with the context-creation error. -/
theorem materializeSignal_result (tmp : String) (s : DownloadSignal) (a b : Bool) :
    (materializeSignal tmp s a b).1 ≠ Except.error JsError.contextCreateFailed := by
  rcases s with d | d | r <;> simp only [materializeSignal]
  · split <;> simp
  · split <;> simp
  · rcases hr : respFilename ((r.contentDisposition).getD ("")) r.url with _ | fn <;>
      simp only [hr]
    · simp
    · split <;> simp

/-- The login protocol never fails with the context-creation error. -/
theorem authenticate_result (a : AuthFixture) :
    authenticate a ≠ Except.error JsError.contextCreateFailed := by
  unfold authenticate
  rcases h1 : a.accountFillOk <;> rcases h2 : a.passwordFillOk <;> simp

/-- The `try`-block body never fails with the context-creation error. -/
theorem runBody_result (w : World) :
    (runBody w).1 ≠ Except.error JsError.contextCreateFailed := by
  unfold runBody
  split
  · simp
  · split
    · rcases hs : firstSignal w with _ | s <;> simp [hs]
      exact materializeSignal_result _ _ _ _
    · rcases ha : authenticate w.auth with e' | u <;> simp only [ha]
      · have h := authenticate_result w.auth
        rw [ha] at h
        simpa using h
      · rcases hs : firstSignal w with _ | s <;> simp [hs]
        exact materializeSignal_result _ _ _ _

/-! ### C6 — cleanup on exit paths -/

/-- C6 (amended): no exit path of an acquisition request ever closes the
shared browser or removes the temporary directory (removal happens only
through the artifact's release action, so failure paths leave the
directory behind); on every path reached after context and page creation
succeed — success or failure of the body — the final recorded step is
the best-effort context close; but when page creation fails after the
context was created, the context is never closed. -/
theorem c6_cleanup_paths :
    (∀ w : World, Effect.browserClose ∉ (downloadAipptTemplate w).2
      ∧ Effect.rmTmpDir ∉ (downloadAipptTemplate w).2)
    ∧ (∀ w : World, urlOk w.templateUrl = true →
        jsFalsy w.envUsername = false → jsFalsy w.envPassword = false →
        w.launchOk = true → stateFileCorrupt w.stateFile = false →
        w.ctxOk1 = true → w.newPageOk = true →
        ((downloadAipptTemplate w).2).getLast? = some Effect.contextClose)
    ∧ (∀ w : World, urlOk w.templateUrl = true →
        jsFalsy w.envUsername = false → jsFalsy w.envPassword = false →
        w.launchOk = true → stateFileCorrupt w.stateFile = false →
        w.ctxOk1 = true → w.newPageOk = false →
        Effect.contextClose ∉ (downloadAipptTemplate w).2
        ∧ Effect.contextCreate ∈ (downloadAipptTemplate w).2) := by
  refine ⟨?_, ?_, ?_⟩
  · intro w
    exact ⟨fun hmem => (downloadTrace_mem w _ hmem).1 rfl,
           fun hmem => (downloadTrace_mem w _ hmem).2 rfl⟩
  · intro w hu h1 h2 hl hsf hc1 hp
    simp only [downloadAipptTemplate, afterContext, hu, h1, h2, hl, hsf, hc1, hp]
    simp [lastConcat, List.getLast?_cons_cons]
  · intro w hu h1 h2 hl hsf hc1 hp
    simp only [downloadAipptTemplate, afterContext, hu, h1, h2, hl, hsf, hc1, hp]
    simp

/-- C6 witness: the amended theorem applied at the baseline world (body
runs, trace ends in the context close) and at the world whose page
creation fails (context never closed). -/
theorem c6_cleanup_paths_witness :
    ((downloadAipptTemplate baseWorld).2).getLast? = some Effect.contextClose
    ∧ Effect.contextClose ∉ (downloadAipptTemplate worldNoPage).2 :=
  ⟨c6_cleanup_paths.2.1 baseWorld (by decide) (by decide) (by decide) (by decide)
      (by decide) (by decide) (by decide),
   (c6_cleanup_paths.2.2 worldNoPage (by decide) (by decide) (by decide) (by decide)
      (by decide) (by decide) (by decide)).1⟩

/-- C6 counterexample: on the exit path where the download never starts,
the request fails with 下载未开始, the temporary directory was created,
the context close is the final step — but no temporary-directory removal
ever runs, contradicting the claim that cleanup including
temporary-directory removal runs as a guaranteed final step on every
exit path. -/
theorem c6_counterexample :
    (downloadAipptTemplate baseWorld).1 = .error .downloadNotStarted
    ∧ Effect.mkTmpDir ∈ (downloadAipptTemplate baseWorld).2
    ∧ Effect.rmTmpDir ∉ (downloadAipptTemplate baseWorld).2 :=
  ⟨rfl, by decide, by decide⟩

/-! ### C7 — best-effort clicks in the authentication protocol -/

/-- C7 (amended): every click in the login protocol — the login/register
entry point, the password-login toggle, the labeled submit span or the
generic primary submit button — is best-effort: the protocol's outcome
is entirely determined by whether the two credential fields can be
filled, and no submit-control failure is ever fatal.  The protocol fails
(with the propagated fill timeout) exactly when the account field or the
password field cannot be filled. -/
theorem c7_auth_best_effort :
    (∀ a b : AuthFixture, a.accountFillOk = b.accountFillOk →
      a.passwordFillOk = b.passwordFillOk → authenticate a = authenticate b)
    ∧ (∀ a : AuthFixture, authenticate a = .ok () ↔
        (a.accountFillOk = true ∧ a.passwordFillOk = true))
    ∧ (∀ a : AuthFixture, a.accountFillOk = false →
        authenticate a = .error (.fillTimeout ("account")))
    ∧ (∀ a : AuthFixture, a.accountFillOk = true → a.passwordFillOk = false →
        authenticate a = .error (.fillTimeout ("password"))) := by
  refine ⟨?_, ?_, ?_, ?_⟩
  · intro a b h1 h2
    simp [authenticate, h1, h2]
  · intro a
    unfold authenticate
    rcases h1 : a.accountFillOk <;> rcases h2 : a.passwordFillOk <;> simp
  · intro a h1
    simp [authenticate, h1]
  · intro a h1 h2
    simp [authenticate, h1, h2]

/-- C7 witness: the characterization applied at the all-succeeding
fixture and at a fixture whose password fill times out. -/
theorem c7_auth_best_effort_witness :
    authenticate authAllOk = .ok ()
    ∧ authenticate { authAllOk with passwordFillOk := false } =
        .error (.fillTimeout ("password")) :=
  ⟨(c7_auth_best_effort.2.1 authAllOk).mpr ⟨rfl, rfl⟩,
   c7_auth_best_effort.2.2.2 { authAllOk with passwordFillOk := false } rfl rfl⟩

/-- C7 counterexample: a login environment in which no submit control
can be located (the labeled span is absent) and clicking the fallback
primary button fails — yet the protocol succeeds, because both submit
clicks are swallowed.  The claim that the protocol fails with an
authentication error exactly when no submit control can be located or a
click cannot be recovered is therefore false as stated. -/
theorem c7_counterexample :
    authNoSubmit.submitSpanPresent = false
    ∧ authNoSubmit.primaryBtnClickOk = false
    ∧ authenticate authNoSubmit = .ok () :=
  ⟨rfl, rfl, rfl⟩

/-! ### C8 — session snapshot read failures -/

/-- C8 (amended): a missing snapshot file degrades to a fresh,
unauthenticated context — the request proceeds through context and page
creation on the first attempt; but a corrupt snapshot file makes context
creation throw, the single retry (with the same file) throw again, and
the request fail with the context-creation error before the `try` block,
so the context-close step never runs. -/
theorem c8_snapshot_read :
    (∀ w : World, urlOk w.templateUrl = true →
      jsFalsy w.envUsername = false → jsFalsy w.envPassword = false →
      w.launchOk = true → w.stateFile = .absent → w.ctxOk1 = true →
      w.newPageOk = true →
      Effect.newPage ∈ (downloadAipptTemplate w).2
      ∧ (downloadAipptTemplate w).1 ≠ .error .contextCreateFailed)
    ∧ (∀ w : World, urlOk w.templateUrl = true →
      jsFalsy w.envUsername = false → jsFalsy w.envPassword = false →
      w.launchOk = true → w.stateFile = .corrupt →
      downloadAipptTemplate w = (.error .contextCreateFailed,
        [Effect.mkTmpDir,
         Effect.browserLaunch (headlessOf w.optionsHeadless w.envPlaywrightHeadless),
         Effect.contextCreate, Effect.contextCreate])) := by
  refine ⟨?_, ?_⟩
  · intro w hu h1 h2 hl hsf hc1 hp
    have hcor : stateFileCorrupt w.stateFile = false := by rw [hsf]; rfl
    simp only [downloadAipptTemplate, afterContext, hu, h1, h2, hl, hcor, hc1, hp]
    simp
    exact runBody_result w
  · intro w hu h1 h2 hl hsf
    have hcor : stateFileCorrupt w.stateFile = true := by rw [hsf]; rfl
    simp only [downloadAipptTemplate, hu, h1, h2, hl, hcor]
    simp

/-- C8 witness: the amended theorem applied at the baseline world
(absent snapshot) and at the corrupt-snapshot world. -/
theorem c8_snapshot_read_witness :
    (Effect.newPage ∈ (downloadAipptTemplate baseWorld).2
      ∧ (downloadAipptTemplate baseWorld).1 ≠ .error .contextCreateFailed)
    ∧ downloadAipptTemplate worldCorrupt = (.error .contextCreateFailed,
        [Effect.mkTmpDir, Effect.browserLaunch true,
         Effect.contextCreate, Effect.contextCreate]) :=
  ⟨c8_snapshot_read.1 baseWorld (by decide) (by decide) (by decide) (by decide)
      rfl (by decide) (by decide),
   c8_snapshot_read.2 worldCorrupt (by decide) (by decide) (by decide) (by decide) rfl⟩

/-- C8 counterexample: with a corrupt snapshot file the request fails
with the context-creation error instead of degrading to a fresh,
unauthenticated context, so the claim that a corrupt file is treated as
an absent snapshot is false as stated. -/
theorem c8_counterexample :
    worldCorrupt.stateFile = .corrupt
    ∧ (downloadAipptTemplate worldCorrupt).1 = .error .contextCreateFailed :=
  ⟨rfl, rfl⟩

/-! ### C9 — the release action -/

/-- C9 (amended): on a removable temporary directory, calling the
artifact's release action twice never raises and leaves no residual
directory — the second call is a no-op because `force: true` suppresses
the path-does-not-exist error; but removal errors other than absence
(e.g. permissions) are not swallowed: they propagate to the caller. -/
theorem c9_release_idempotent :
    cleanup DirState.present = .ok DirState.absent
    ∧ (cleanup DirState.present >>= cleanup) = .ok DirState.absent
    ∧ cleanup DirState.absent = .ok DirState.absent
    ∧ ∃ e, cleanup DirState.presentLocked = .error e :=
  ⟨rfl, rfl, rfl, JsError.rmFailed, rfl⟩

/-- C9 counterexample: a present-but-unremovable directory (a removal
error other than absence) makes the release action raise, so the claim
that removal errors are swallowed and the release action never raises is
false as stated. -/
theorem c9_counterexample :
    cleanup DirState.presentLocked = .error JsError.rmFailed :=
  rfl

/-! ### C10 — the headless default -/

/-- C10: when `options.headless` is not supplied the launch is headless
by default; it becomes non-headless only when the `PLAYWRIGHT_HEADLESS`
environment value is exactly the string `false` — any other set value
(`0`, `no`, or even the empty string) still yields a headless launch —
and a supplied `options.headless` always overrides the environment.  The
launch effect recorded by the orchestrator carries exactly this flag. -/
theorem c10_headless_default :
    (∀ (b : Bool) (e : Option String), headlessOf (some b) e = b)
    ∧ headlessOf none none = true
    ∧ headlessOf none (some ("false")) = false
    ∧ headlessOf none (some ("0")) = true
    ∧ headlessOf none (some ("no")) = true
    ∧ headlessOf none (some ("")) = true
    ∧ ((downloadAipptTemplate
          { baseWorld with envPlaywrightHeadless := some ("false") }).2).take 2 =
        [Effect.mkTmpDir, Effect.browserLaunch false]
    ∧ ((downloadAipptTemplate baseWorld).2).take 2 =
        [Effect.mkTmpDir, Effect.browserLaunch true] :=
  ⟨fun _ _ => rfl, rfl, rfl, rfl, rfl, rfl, rfl, rfl⟩

/-! ### C5 — single-flight browser launch -/

/-- While a launch is in flight and nothing is cached, every arriving
caller suspends on that same launch without starting another. -/
theorem startAll_awaiting (n : Nat) (g : ManagerState) (l : Nat)
    (h1 : g.sharedBrowser = none) (h2 : g.launchingBrowser = some l) :
    startAll g n = (g, List.replicate n (CallerState.awaitingShared l)) := by
  induction n with
  | zero => simp [startAll]
  | succ k ih =>
    simp [startAll, callStart, h1, h2, ih, List.replicate_succ]

/-- Once the instance is cached, every waiter resuming from the same
launch finishes with that instance, leaving the state untouched. -/
theorem resumeAll_replicate (n : Nat) (lid : Nat) (res : Except Unit Nat)
    (g : ManagerState) (b : Nat) (hb : g.sharedBrowser = some b) :
    resumeAll lid res g (List.replicate n (CallerState.awaitingShared lid)) =
      (g, List.replicate n (CallerState.finished (.ok b))) := by
  induction n with
  | zero => simp [resumeAll]
  | succ k ih =>
    simp [resumeAll, resumeCaller, hb, ih, List.replicate_succ]

/-- C5 (amended): when `n + 1` concurrent acquisition calls arrive
before any browser instance exists, exactly one underlying launch occurs
(`launches = [0]`), all callers await that single in-flight launch, and
all of them receive the one launched instance.  When the single launch
fails, the failure propagates to the initiating caller and the in-flight
marker is reset so a retry is possible — but a waiting caller does not
receive the failure: it swallows the rejection and starts a fresh launch
of its own, which can then succeed.  When the shared instance
disconnects, the cached reference is cleared and the next call triggers
a fresh launch. -/
theorem c5_single_flight :
    (∀ n : Nat, coalesceScenario (n + 1) =
      (managerLaunched, List.replicate (n + 1) (CallerState.finished (.ok 0))))
    ∧ managerLaunched.launches = [0]
    ∧ failThenRetryAlone =
        ({ sharedBrowser := none, launchingBrowser := some 1, nextLaunchId := 2,
           launches := [0, 1] }, CallerState.awaitingOwn 1)
    ∧ failRetryScenario =
        ({ sharedBrowser := some 1, launchingBrowser := none, nextLaunchId := 2,
           launches := [0, 1] },
         [CallerState.finished (.error ()), CallerState.finished (.ok 1)])
    ∧ disconnectScenario =
        ({ sharedBrowser := none, launchingBrowser := some 1, nextLaunchId := 2,
           launches := [0, 1] }, CallerState.awaitingOwn 1) := by
  refine ⟨?_, rfl, rfl, rfl, rfl⟩
  intro n
  unfold coalesceScenario
  have hs : startAll initManager (n + 1) =
      (managerAfterFirst,
       CallerState.awaitingOwn 0 :: List.replicate n (CallerState.awaitingShared 0)) := by
    have h1 := startAll_awaiting n managerAfterFirst 0 rfl rfl
    simp only [managerAfterFirst] at h1
    simp [startAll, callStart, initManager, managerAfterFirst, h1]
  rw [hs]
  have h2 := resumeAll_replicate n 0 (Except.ok 0) managerLaunched 0 rfl
  simp only [managerLaunched] at h2
  simp [resolveLaunch, resumeAll, resumeCaller, managerAfterFirst, managerLaunched,
    h2, List.replicate_succ]

/-- C5 counterexample: in the two-caller run whose first launch fails,
the waiter's final outcome is a successfully acquired instance — the
launch failure did not propagate to it — and a second launch occurred,
so the claim that a launch failure propagates to all waiters is false as
stated. -/
theorem c5_counterexample :
    failRetryScenario.2.getLast? = some (CallerState.finished (.ok 1))
    ∧ (failRetryScenario.1).launches ≠ [0] :=
  ⟨rfl, by decide⟩

end Aippt
